import Mathlib

/-!
Verification of the property-search core of the Real Estate API
(`src/main.py`): the filter compiler, the store query, and the response
normalizer of the `list_properties` endpoint.

Embedding conventions:
* Mongo documents of the `property` collection are `RawRecord`s: every
  field the endpoint reads is optional (schemaless store).
* Python `int` is `Int`, Python `float` (bathrooms) is `Rat` (only
  order comparisons occur, so rationals are faithful).
* The Mongo filter dict built by `list_properties` is the `Filter`
  structure; each field corresponds to one key of `filter_query`.
* Evaluation of the filter by the document store is an external
  collaborator; its consumed contract is given by the spec (sections 4.1
  and 4.2): `$regex pat $options i` with a raw pattern denotes
  case-insensitive substring containment, and `^v$` denotes anchored
  case-insensitive equality.  A key absent from the document never
  satisfies an equality / range / regex condition on that key.
* pydantic validation of `PropertyResponse` rejects `None` for the
  non-`Optional` fields, so normalization is `Option`-valued; a `none`
  models the raised `ValidationError` (an unhandled exception, HTTP 500).
-/

/-- Output schema of the endpoint, mirroring the pydantic model
`PropertyResponse` of `src/main.py` lines 27-48.  `Optional[...]` fields
are `Option`s; all other fields are mandatory in the output. -/
structure PropertyResponse where
  id : String
  title : String
  status : String
  price : Int
  currency : String
  address : String
  city : String
  state : Option String
  country : String
  bedrooms : Int
  bathrooms : Rat
  property_type : String
  area_sqft : Option Int
  lot_size_sqft : Option Int
  year_built : Option Int
  parking_spaces : Option Int
  hoa_fee : Option Int
  description : Option String
  images : List String
  features : List String
  deriving DecidableEq, Repr

/-- A raw document of the schemaless `property` collection: every field
the endpoint reads may be absent (`d.get(k)` returns `None`). -/
structure RawRecord where
  oid : Option String := none
  title : Option String := none
  status : Option String := none
  price : Option Int := none
  currency : Option String := none
  address : Option String := none
  city : Option String := none
  state : Option String := none
  country : Option String := none
  bedrooms : Option Int := none
  bathrooms : Option Rat := none
  property_type : Option String := none
  area_sqft : Option Int := none
  lot_size_sqft : Option Int := none
  year_built : Option Int := none
  parking_spaces : Option Int := none
  hoa_fee : Option Int := none
  description : Option String := none
  images : Option (List String) := none
  features : Option (List String) := none
  deriving DecidableEq, Repr

/-- Query parameters of `GET /properties` (`src/main.py` lines 51-61).
FastAPI defaults: `status` defaults to `"sale"`, `limit` to `50`; all
other parameters default to absent. -/
structure SearchParams where
  q : Option String := none
  min_price : Option Int := none
  max_price : Option Int := none
  bedrooms : Option Int := none
  bathrooms : Option Rat := none
  city : Option String := none
  state : Option String := none
  property_type : Option String := none
  status : String := "sale"
  limit : Int := 50
  deriving DecidableEq, Repr

/-- FastAPI input validation (`Query(None, ge=0)` on the numeric bounds,
`Query(50, ge=1, le=200)` on `limit`): performed before the handler body
runs; a violation is a 422 client error. -/
def validateParams (p : SearchParams) : Bool :=
  p.min_price.all (fun v => decide (0 ≤ v)) &&
  p.max_price.all (fun v => decide (0 ≤ v)) &&
  p.bedrooms.all (fun v => decide (0 ≤ v)) &&
  p.bathrooms.all (fun v => decide (0 ≤ v)) &&
  (decide (1 ≤ p.limit) && decide (p.limit ≤ 200))

/-- The composed Mongo `filter_query` dict built in `src/main.py`
lines 66-97.  Each field is one key: `q` is the `$or` block of four
`$regex` conditions, `price_gte`/`price_lte` the `price` range document
(the key `price` is present iff at least one of them is `some`),
`bedrooms_gte`/`bathrooms_gte` the `$gte` documents, and
`city`/`state`/`property_type` the anchored case-insensitive `$regex`
conditions. -/
structure MongoFilter where
  status : String
  q : Option String
  price_gte : Option Int
  price_lte : Option Int
  bedrooms_gte : Option Int
  bathrooms_gte : Option Rat
  city : Option String
  state : Option String
  property_type : Option String
  deriving DecidableEq, Repr

/-- Python truthiness of an optional string parameter (`if q:` /
`if city:` ...): `None` and the empty string are both falsy, so an
empty-string criteria value is dropped exactly like an absent one. -/
def strOptPresent : Option String → Option String
  | some s => if s = "" then none else some s
  | none => none

/-- The filter compiler: the `filter_query` construction of
`src/main.py` lines 66-97.  `status` is always present (line 66); `q`,
`city`, `state`, `property_type` are included only when truthy (lines
68, 90, 93, 96); the numeric bounds are included whenever not `None`
(lines 76-88). -/
def compileFilter (p : SearchParams) : MongoFilter :=
  { status := p.status
  , q := strOptPresent p.q
  , price_gte := p.min_price
  , price_lte := p.max_price
  , bedrooms_gte := p.bedrooms
  , bathrooms_gte := p.bathrooms
  , city := strOptPresent p.city
  , state := strOptPresent p.state
  , property_type := strOptPresent p.property_type }

/-- Check whether `n` is a prefix of `h` (character lists). -/
def startsWithL : List Char → List Char → Bool
  | [], _ => true
  | _ :: _, [] => false
  | a :: as, b :: bs => (a == b) && startsWithL as bs

/-- Check whether `n` occurs contiguously inside `h`. -/
def substrL (n : List Char) : List Char → Bool
  | [] => n.isEmpty
  | c :: t => startsWithL n (c :: t) || substrL n t

/-- Modelled from the spec: the store evaluates
`{"$regex": pat, "$options": "i"}` with a raw (unanchored) pattern as
case-insensitive substring containment (spec section 4.1, `q` row). -/
def ciContains (pat s : String) : Bool :=
  substrL (pat.data.map Char.toLower) (s.data.map Char.toLower)

/-- Modelled from the spec: the store evaluates
`{"$regex": "^pat$", "$options": "i"}` as anchored case-insensitive
equality (spec section 4.1, city/state/property_type row). -/
def ciEquals (pat s : String) : Bool :=
  pat.data.map Char.toLower == s.data.map Char.toLower

/-- A `$regex`-substring condition applied to a possibly absent field:
a missing key never matches. -/
def optContainsCI (pat : String) : Option String → Bool
  | some v => ciContains pat v
  | none => false

/-- An anchored `$regex` condition applied to a possibly absent field:
a missing key never matches. -/
def optExactCI (pat : String) : Option String → Bool
  | some v => ciEquals pat v
  | none => false

/-- The `$or` block of `src/main.py` lines 69-74: the pattern `q`
against `title`, `city`, `state`, `address`. -/
def evalQ (f : MongoFilter) (d : RawRecord) : Bool :=
  match f.q with
  | none => true
  | some pat =>
      optContainsCI pat d.title || optContainsCI pat d.city ||
      optContainsCI pat d.state || optContainsCI pat d.address

/-- The `price` range document of `src/main.py` lines 76-82: the key is
present iff at least one bound is; a present range document only matches
documents that carry a `price` satisfying every present bound. -/
def evalPrice (f : MongoFilter) (d : RawRecord) : Bool :=
  if f.price_gte.isNone && f.price_lte.isNone then true
  else
    match d.price with
    | none => false
    | some x =>
        f.price_gte.all (fun m => decide (m ≤ x)) &&
        f.price_lte.all (fun M => decide (x ≤ M))

/-- A `{"$gte": b}` condition on an integer field. -/
def evalGteI (bound : Option Int) (v : Option Int) : Bool :=
  match bound with
  | none => true
  | some b => match v with
    | none => false
    | some x => decide (b ≤ x)

/-- A `{"$gte": b}` condition on the fractional `bathrooms` field. -/
def evalGteQ (bound : Option Rat) (v : Option Rat) : Bool :=
  match bound with
  | none => true
  | some b => match v with
    | none => false
    | some x => decide (b ≤ x)

/-- An optional anchored case-insensitive condition on a string field. -/
def evalOptStr (cond : Option String) (v : Option String) : Bool :=
  match cond with
  | none => true
  | some c => optExactCI c v

/-- Modelled from the spec: evaluation of the composed `filter_query`
by the document store (`db["property"].find`, an external collaborator;
consumed contract of spec sections 4.1-4.2).  All present keys must hold
simultaneously (logical AND); the plain `{"status": v}` key is ordinary
(case-sensitive) Mongo equality, matched only by documents carrying
that field. -/
def evalFilter (f : MongoFilter) (d : RawRecord) : Bool :=
  (d.status == some f.status) &&
  evalQ f d &&
  evalPrice f d &&
  evalGteI f.bedrooms_gte d.bedrooms &&
  evalGteQ f.bathrooms_gte d.bathrooms &&
  evalOptStr f.city d.city &&
  evalOptStr f.state d.state &&
  evalOptStr f.property_type d.property_type

/-- Python `str(d.get("_id"))` of `src/main.py` line 105: Python `str(None)`
is the string `"None"`. -/
def strOfOid : Option String → String
  | some s => s
  | none => "None"

/-- The response normalizer: the `PropertyResponse(...)` construction of
`src/main.py` lines 104-125.  `d.get(k, default)` supplies the declared
defaults; for the non-`Optional` pydantic fields `title`, `status`,
`price`, `address`, `city` a `d.get(k)` returning `None` fails pydantic
validation, i.e. the constructor raises — modelled by `none`. -/
def normalizeDoc (d : RawRecord) : Option PropertyResponse :=
  match d.title, d.status, d.price, d.address, d.city with
  | some title, some status, some price, some address, some city =>
      some
        { id := strOfOid d.oid
        , title := title
        , status := status
        , price := price
        , currency := d.currency.getD "USD"
        , address := address
        , city := city
        , state := d.state
        , country := d.country.getD "USA"
        , bedrooms := d.bedrooms.getD 0
        , bathrooms := d.bathrooms.getD 0
        , property_type := d.property_type.getD "house"
        , area_sqft := d.area_sqft
        , lot_size_sqft := d.lot_size_sqft
        , year_built := d.year_built
        , parking_spaces := d.parking_spaces
        , hoa_fee := d.hoa_fee
        , description := d.description
        , images := d.images.getD []
        , features := d.features.getD [] }
  | _, _, _, _, _ => none

/-- The normalization loop of `src/main.py` lines 101-127: each raw
document in order; the first pydantic failure aborts the request. -/
def normalizeAll : List RawRecord → Option (List PropertyResponse)
  | [] => some []
  | d :: ds =>
      match normalizeDoc d, normalizeAll ds with
      | some r, some rs => some (r :: rs)
      | _, _ => none

/-- Outcome of one `GET /properties` request. -/
inductive ApiResult where
  /-- FastAPI rejects the query parameters (HTTP 422), before the
  handler body runs. -/
  | invalidParams : ApiResult
  /-- An explicit `HTTPException(status_code, detail)`. -/
  | httpError (status_code : Nat) (detail : String) : ApiResult
  /-- An unhandled exception inside the handler (pydantic
  `ValidationError`), surfaced as HTTP 500. -/
  | internalError : ApiResult
  /-- Normal completion with the response body. -/
  | ok (body : List PropertyResponse) : ApiResult
  deriving DecidableEq, Repr

/-- The `list_properties` endpoint (`src/main.py` lines 50-128).
`db` is the ambient store handle (`none` when the database connection
was never initialized).  Order of effects follows the source: FastAPI
parameter validation, the `db is None` guard (line 63), filter
compilation (lines 66-97), `find(filter).limit(limit)` (line 99), then
normalization (lines 101-127). -/
def list_properties (p : SearchParams) (db : Option (List RawRecord)) :
    ApiResult :=
  if validateParams p then
    match db with
    | none => ApiResult.httpError 500 "Database not available"
    | some store =>
        let docs :=
          (store.filter (fun d => evalFilter (compileFilter p) d)).take
            p.limit.toNat
        match normalizeAll docs with
        | some res => ApiResult.ok res
        | none => ApiResult.internalError
  else ApiResult.invalidParams

/-! ### Helper lemmas -/

theorem normalizeAll_length (l : List RawRecord) (res : List PropertyResponse)
    (h : normalizeAll l = some res) : res.length = l.length := by
  induction l generalizing res with
  | nil =>
      simp [normalizeAll] at h
      subst h; rfl
  | cons d ds ih =>
      simp only [normalizeAll] at h
      cases hd : normalizeDoc d with
      | none => rw [hd] at h; simp at h
      | some r =>
          rw [hd] at h
          cases hds : normalizeAll ds with
          | none => rw [hds] at h; simp at h
          | some rs =>
              rw [hds] at h
              simp at h
              subst h
              simp [ih rs hds]

theorem normalizeAll_mem (l : List RawRecord) (res : List PropertyResponse)
    (r : PropertyResponse) (h : normalizeAll l = some res) (hr : r ∈ res) :
    ∃ d ∈ l, normalizeDoc d = some r := by
  induction l generalizing res with
  | nil =>
      simp [normalizeAll] at h
      subst h; simp at hr
  | cons d ds ih =>
      simp only [normalizeAll] at h
      cases hd : normalizeDoc d with
      | none => rw [hd] at h; simp at h
      | some r0 =>
          rw [hd] at h
          cases hds : normalizeAll ds with
          | none => rw [hds] at h; simp at h
          | some rs =>
              rw [hds] at h
              simp at h
              subst h
              rcases List.mem_cons.mp hr with h1 | h1
              · exact ⟨d, List.mem_cons_self d ds, by rw [hd, h1]⟩
              · rcases ih rs hds h1 with ⟨d1, hd1, hnd1⟩
                exact ⟨d1, List.mem_cons_of_mem d hd1, hnd1⟩

theorem normalizeDoc_price (d : RawRecord) (r : PropertyResponse)
    (h : normalizeDoc d = some r) : d.price = some r.price := by
  unfold normalizeDoc at h
  cases ht : d.title <;> rw [ht] at h <;>
  cases hs : d.status <;> rw [hs] at h <;>
  cases hp : d.price <;> rw [hp] at h <;>
  cases ha : d.address <;> rw [ha] at h <;>
  cases hc : d.city <;> rw [hc] at h <;>
  simp at h
  subst h
  rfl

/-! ### Claim theorems -/

/-- Claim C5: when every criteria field is absent except the status, the
compiled predicate matches a stored record exactly when the record's
`status` field equals the given status value. -/
theorem status_only_identity_filtering (s : String) (d : RawRecord) :
    evalFilter (compileFilter { status := s }) d = (d.status == some s) := by
  simp [evalFilter, compileFilter, strOptPresent, evalQ, evalPrice,
    evalGteI, evalGteQ, evalOptStr]

/-- Claim C10: an empty-string `q`, `city`, `state` or `property_type`
parameter compiles to the very same filter as an absent one (Python
truthiness drops it), while `bedrooms = 0` or `bathrooms = 0` still
compiles to a `$gte 0` condition, which a record lacking that field
does not satisfy. -/
theorem empty_string_vs_zero_params (p : SearchParams) :
    compileFilter { p with q := some "" } = compileFilter { p with q := none } ∧
    compileFilter { p with city := some "" } = compileFilter { p with city := none } ∧
    compileFilter { p with state := some "" } = compileFilter { p with state := none } ∧
    compileFilter { p with property_type := some "" } =
      compileFilter { p with property_type := none } ∧
    (compileFilter { p with bedrooms := some 0 }).bedrooms_gte = some 0 ∧
    (compileFilter { p with bathrooms := some 0 }).bathrooms_gte = some 0 ∧
    evalGteI (some 0) none = false ∧
    evalGteQ (some 0) none = false := by
  refine ⟨?_, ?_, ?_, ?_, rfl, rfl, rfl, rfl⟩ <;>
    simp [compileFilter, strOptPresent]

/-- Claim C9: with the database handle uninitialized, a well-formed request
fails with the explicit `HTTPException(500, "Database not available")`
of `src/main.py` line 64; no store is consulted. -/
theorem db_none_service_unavailable (p : SearchParams)
    (h : validateParams p = true) :
    list_properties p none = ApiResult.httpError 500 "Database not available" := by
  simp [list_properties, h]

/-- Witness for `db_none_service_unavailable` at the default
parameters. -/
theorem db_none_service_unavailable_witness :
    list_properties { } none = ApiResult.httpError 500 "Database not available" :=
  db_none_service_unavailable { } (by decide)

/-- Claim C8: a negative `min_price`, `max_price`, `bedrooms` or `bathrooms`,
or a `limit` outside `[1, 200]`, is rejected by FastAPI's parameter
validation (422) before the handler body runs, for any state of the
store handle. -/
theorem negative_bounds_rejected (p : SearchParams)
    (db : Option (List RawRecord))
    (h : (∃ v, p.min_price = some v ∧ v < 0) ∨
         (∃ v, p.max_price = some v ∧ v < 0) ∨
         (∃ v, p.bedrooms = some v ∧ v < 0) ∨
         (∃ v, p.bathrooms = some v ∧ v < 0) ∨
         p.limit < 1 ∨ 200 < p.limit) :
    list_properties p db = ApiResult.invalidParams := by
  have hv : validateParams p = false := by
    rcases h with ⟨v, hv, hneg⟩ | ⟨v, hv, hneg⟩ | ⟨v, hv, hneg⟩ |
      ⟨v, hv, hneg⟩ | hlim | hlim
    · have : ¬ (0 ≤ v) := by omega
      simp [validateParams, hv, this]
    · have : ¬ (0 ≤ v) := by omega
      simp [validateParams, hv, this]
    · have : ¬ (0 ≤ v) := by omega
      simp [validateParams, hv, this]
    · have : ¬ (0 ≤ v) := by linarith
      simp [validateParams, hv, this]
    · have : ¬ (1 ≤ p.limit) := by omega
      simp [validateParams, this]
    · have : ¬ (p.limit ≤ 200) := by omega
      simp [validateParams, this]
  simp [list_properties, hv]

/-- Witness for `negative_bounds_rejected` at `limit = 0`. -/
theorem negative_bounds_rejected_witness :
    list_properties { limit := 0 } none = ApiResult.invalidParams :=
  negative_bounds_rejected { limit := 0 } none
    (Or.inr (Or.inr (Or.inr (Or.inr (Or.inl (by decide))))))

/-- A legacy store document lacking a `title` key (all other
always-expected fields present). -/
def legacyDoc : RawRecord :=
  { status := some "sale", price := some 100000,
    address := some "1 Main St", city := some "Austin" }

/-- Claim C1 (failing input): a store record missing `title` makes the
normalizer fail — `PropertyResponse(title=None, ...)` raises a pydantic
`ValidationError` because `title : str` is not `Optional`, and the
request dies with an unhandled-exception 500 instead of producing a
nil/empty marker. -/
theorem missing_title_is_fatal :
    normalizeDoc legacyDoc = none ∧
    list_properties { } (some [legacyDoc]) = ApiResult.internalError := by
  constructor
  · rfl
  · rfl

theorem list_properties_ok_elim (p : SearchParams) (store : List RawRecord)
    (res : List PropertyResponse)
    (h : list_properties p (some store) = ApiResult.ok res) :
    validateParams p = true ∧
    normalizeAll
      ((store.filter (fun d => evalFilter (compileFilter p) d)).take
        p.limit.toNat) = some res := by
  unfold list_properties at h
  split at h
  · dsimp only [] at h
    split at h
    · rename_i r hn
      simp only [ApiResult.ok.injEq] at h
      subst h
      exact ⟨by assumption, hn⟩
    · simp at h
  · simp at h

/-- Claim C7: every successful search returns at most `limit` records, the
default `limit` is 50, and the default `status` is `"sale"`. -/
theorem result_cap_and_defaults (p : SearchParams) (store : List RawRecord)
    (res : List PropertyResponse)
    (h : list_properties p (some store) = ApiResult.ok res) :
    res.length ≤ p.limit.toNat ∧
    ({ } : SearchParams).limit = 50 ∧ ({ } : SearchParams).status = "sale" := by
  refine ⟨?_, rfl, rfl⟩
  obtain ⟨hv, hn⟩ := list_properties_ok_elim p store res h
  have hlen := normalizeAll_length _ _ hn
  rw [hlen, List.length_take]
  exact min_le_left _ _

/-- A fully-populated-enough sale document with price 150. -/
def saleDoc150 : RawRecord :=
  { title := some "T", status := some "sale", price := some 150,
    address := some "A", city := some "C" }

/-- The normalization of `saleDoc150`. -/
def saleOut150 : PropertyResponse :=
  { id := "None", title := "T", status := "sale", price := 150,
    currency := "USD", address := "A", city := "C", state := none,
    country := "USA", bedrooms := 0, bathrooms := 0,
    property_type := "house", area_sqft := none, lot_size_sqft := none,
    year_built := none, parking_spaces := none, hoa_fee := none,
    description := none, images := [], features := [] }

/-- Witness for `result_cap_and_defaults`: a cap of 1 against two
matching stored records returns exactly one record. -/
theorem result_cap_and_defaults_witness :
    ([saleOut150] : List PropertyResponse).length ≤
      ({ limit := 1 } : SearchParams).limit.toNat ∧
    ({ } : SearchParams).limit = 50 ∧ ({ } : SearchParams).status = "sale" :=
  result_cap_and_defaults { limit := 1 } [saleDoc150, saleDoc150]
    [saleOut150] (by decide)

/-- Claim C4: every record returned by a successful search respects each
present price bound (closed interval when both bounds are present, open
on an absent side), and a contradictory range `min_price > max_price`
yields the empty result set with no special-case error. -/
theorem price_range_behavior (p : SearchParams) (store : List RawRecord) :
    (∀ res, list_properties p (some store) = ApiResult.ok res →
      ∀ r ∈ res,
        (∀ m, p.min_price = some m → m ≤ r.price) ∧
        (∀ M, p.max_price = some M → r.price ≤ M)) ∧
    (∀ m M, p.min_price = some m → p.max_price = some M → M < m →
      validateParams p = true →
      list_properties p (some store) = ApiResult.ok []) := by
  constructor
  · intro res h r hr
    obtain ⟨hv, hn⟩ := list_properties_ok_elim p store res h
    obtain ⟨d, hd, hnd⟩ := normalizeAll_mem _ _ r hn hr
    have hdmem := List.take_subset _ _ hd
    have hf : evalFilter (compileFilter p) d = true :=
      (List.mem_filter.mp hdmem).2
    have hp : d.price = some r.price := normalizeDoc_price d r hnd
    simp only [evalFilter, Bool.and_eq_true] at hf
    obtain ⟨⟨⟨⟨⟨⟨⟨h1, h2⟩, h3⟩, h4⟩, h5⟩, h6⟩, h7⟩, h8⟩ := hf
    constructor
    · intro m hm
      simp [evalPrice, compileFilter, hm, hp, Bool.and_eq_true] at h3
      exact h3.1
    · intro M hM
      simp [evalPrice, compileFilter, hM, hp, Bool.and_eq_true] at h3
      exact h3.2
  · intro m M hm hM hlt hv
    have hfilter :
        store.filter (fun d => evalFilter (compileFilter p) d) = [] := by
      apply List.filter_eq_nil_iff.mpr
      intro d hd
      suffices hpr : evalPrice (compileFilter p) d = false by
        simp [evalFilter, hpr]
      simp [evalPrice, compileFilter, hm, hM]
      cases hdp : d.price with
      | none => simp
      | some x =>
          by_cases hmx : m ≤ x
          · have hxM : ¬ (x ≤ M) := by omega
            simp [hmx, hxM]
          · simp [hmx]
    simp [list_properties, hv, hfilter, normalizeAll]

/-- Witness for `price_range_behavior`: price 150 lies above the lower
bound 100, and the contradictory range [300, 200] returns no records. -/
theorem price_range_behavior_witness :
    (100 : Int) ≤ saleOut150.price ∧
    list_properties { min_price := some 300, max_price := some 200 }
      (some [saleDoc150]) = ApiResult.ok [] := by
  constructor
  · exact ((price_range_behavior
        { min_price := some 100, max_price := some 200 } [saleDoc150]).1
        [saleOut150] (by decide) saleOut150 (by simp)).1 100 rfl
  · exact (price_range_behavior
        { min_price := some 300, max_price := some 200 } [saleDoc150]).2
        300 200 rfl rfl (by decide) (by decide)

/-- Claim C6: whenever normalization succeeds, an absent `currency`,
`country`, `bedrooms`, `bathrooms`, `property_type`, `images` or
`features` field is replaced by its declared default (`"USD"`, `"USA"`,
`0`, `0.0`, `"house"`, `[]`, `[]`); the list-typed output fields are
total (`List`, not `Option`), hence never absent. -/
theorem normalizer_defaults (d : RawRecord) (out : PropertyResponse)
    (h : normalizeDoc d = some out) :
    (d.currency = none → out.currency = "USD") ∧
    (d.country = none → out.country = "USA") ∧
    (d.bedrooms = none → out.bedrooms = 0) ∧
    (d.bathrooms = none → out.bathrooms = 0) ∧
    (d.property_type = none → out.property_type = "house") ∧
    (d.images = none → out.images = []) ∧
    (d.features = none → out.features = []) := by
  unfold normalizeDoc at h
  cases ht : d.title <;> rw [ht] at h <;>
  cases hs : d.status <;> rw [hs] at h <;>
  cases hp : d.price <;> rw [hp] at h <;>
  cases ha : d.address <;> rw [ha] at h <;>
  cases hc : d.city <;> rw [hc] at h <;>
  simp at h
  subst h
  refine ⟨?_, ?_, ?_, ?_, ?_, ?_, ?_⟩ <;> intro hnone <;> simp [hnone]

/-- Witness for `normalizer_defaults` at `saleDoc150`, whose optional
fields are all absent. -/
theorem normalizer_defaults_witness :
    saleOut150.currency = "USD" ∧ saleOut150.country = "USA" ∧
    saleOut150.bedrooms = 0 ∧ saleOut150.bathrooms = 0 ∧
    saleOut150.property_type = "house" ∧ saleOut150.images = [] ∧
    saleOut150.features = [] := by
  have h := normalizer_defaults saleDoc150 saleOut150 (by decide)
  exact ⟨h.1 rfl, h.2.1 rfl, h.2.2.1 rfl, h.2.2.2.1 rfl,
    h.2.2.2.2.1 rfl, h.2.2.2.2.2.1 rfl, h.2.2.2.2.2.2 rfl⟩

/-- Claim C2: for a non-empty free-text value `q`, the compiled predicate
holds of a record exactly when `q` occurs case-insensitively as a
substring of at least one of the record's `title`, `city`, `state`,
`address` fields (the `$or` block), AND the rest of the compiled filter
(the same criteria with `q` removed) also holds. -/
theorem q_or_substring_semantics (p : SearchParams) (qs : String)
    (d : RawRecord) (hq : p.q = some qs) (h0 : qs ≠ "") :
    evalFilter (compileFilter p) d = true ↔
      ((optContainsCI qs d.title = true ∨ optContainsCI qs d.city = true ∨
        optContainsCI qs d.state = true ∨ optContainsCI qs d.address = true) ∧
       evalFilter (compileFilter { p with q := none }) d = true) := by
  simp only [evalFilter, compileFilter, evalQ, strOptPresent, hq, h0,
    if_false, Bool.and_eq_true, Bool.or_eq_true, if_neg]
  tauto

/-- A record whose address contains "Main". -/
def mainStDoc : RawRecord :=
  { title := some "Cozy cottage", status := some "sale", price := some 5,
    address := some "12 Main St", city := some "Springfield" }

/-- Witness for `q_or_substring_semantics`: query `"main"` matches
`mainStDoc` through its address. -/
theorem q_or_substring_semantics_witness :
    evalFilter (compileFilter { q := some "main" }) mainStDoc = true := by
  have h := q_or_substring_semantics { q := some "main" } "main" mainStDoc
    rfl (by decide)
  exact h.mpr ⟨Or.inr (Or.inr (Or.inr (by decide))), by decide⟩

/-- Claim C3: a present non-empty `city`, `state` or `property_type` value
compiles to an anchored case-insensitive equality: the predicate holds
exactly when the record's corresponding field equals the criteria value
up to letter case and the rest of the filter holds; in particular
`"austin"` and `"AUSTIN"` both match `"Austin"` while the proper prefix
`"Aust"` does not. -/
theorem location_exact_ci (p : SearchParams) (d : RawRecord) :
    (∀ c, p.city = some c → c ≠ "" →
      (evalFilter (compileFilter p) d = true ↔
        (optExactCI c d.city = true ∧
         evalFilter (compileFilter { p with city := none }) d = true))) ∧
    (∀ s, p.state = some s → s ≠ "" →
      (evalFilter (compileFilter p) d = true ↔
        (optExactCI s d.state = true ∧
         evalFilter (compileFilter { p with state := none }) d = true))) ∧
    (∀ t, p.property_type = some t → t ≠ "" →
      (evalFilter (compileFilter p) d = true ↔
        (optExactCI t d.property_type = true ∧
         evalFilter (compileFilter { p with property_type := none }) d = true))) ∧
    (ciEquals "austin" "Austin" = true ∧ ciEquals "AUSTIN" "Austin" = true ∧
     ciEquals "Aust" "Austin" = false) := by
  refine ⟨?_, ?_, ?_, by decide, by decide, by decide⟩ <;>
    intro c hc h0 <;>
    simp only [evalFilter, compileFilter, evalOptStr, strOptPresent, hc, h0,
      if_false, Bool.and_eq_true, if_neg] <;>
    tauto

/-- A record located in Austin. -/
def austinDoc : RawRecord :=
  { title := some "Bungalow", status := some "sale", price := some 9,
    address := some "5 Oak Dr", city := some "Austin" }

/-- Witness for `location_exact_ci`: criteria `city = "austin"` matches
`austinDoc` (stored city `"Austin"`). -/
theorem location_exact_ci_witness :
    evalFilter (compileFilter { city := some "austin" }) austinDoc = true := by
  have h := (location_exact_ci { city := some "austin" } austinDoc).1
    "austin" rfl (by decide)
  exact h.mpr ⟨by decide, by decide⟩
